import Mathlib

/-!
Verification of the gRPC HHVM extension's credential layer
(`src/php/ext/grpc/hhvm/channel_credentials.cpp`,
`src/php/ext/grpc/hhvm/call_credentials.{h,cpp}`).

Shallow embedding: HHVM `String`s and slice byte contents become Lean
`String`s; the process-wide root-certificate store becomes an explicit
state value threaded through its operations; the metadata-plugin bridge
becomes a pure function from the callback's returned value to the bridge's
outputs; C-level throws become `Except.error`.
-/

namespace GrpcHhvm

/-! ## DefaultPermRootCerts (channel_credentials.cpp, lines 40-87) -/

/-- The store's state: the byte content of the `Slice m_PermRootCerts`.
The default-constructed `Slice{}` holds no bytes, embedded as `""`. -/
structure DefaultPermRootCerts where
  m_PermRootCerts : String
  deriving DecidableEq, Repr

/-- The process-wide instance right after its lazy construction
(`DefaultPermRootCerts::DefaultPermRootCerts` zero-initialises the slice). -/
def DefaultPermRootCerts.initial : DefaultPermRootCerts := ⟨""⟩

/-- `DefaultPermRootCerts::getCerts`: shared-lock read of the stored slice.
Sequential embedding: locks have no observable effect on the value read. -/
def getCerts (s : DefaultPermRootCerts) : String := s.m_PermRootCerts

/-- Observable effects recorded by one `setCerts` call. -/
structure SetCertsResult where
  state : DefaultPermRootCerts
  tookExclusiveLock : Bool
  wrote : Bool
  deriving DecidableEq, Repr

/-- `DefaultPermRootCerts::setCerts`: optimistic double-check.  First read
via `getCerts()` (shared lock); if byte-equal, return at once.  Otherwise
acquire the exclusive (`unique_lock`) lock, re-check the member directly,
and only if still different replace the stored slice. -/
def setCerts (s : DefaultPermRootCerts) (permRootsCerts : String) : SetCertsResult :=
  if getCerts s = permRootsCerts then
    { state := s, tookExclusiveLock := false, wrote := false }
  else if s.m_PermRootCerts = permRootsCerts then
    { state := s, tookExclusiveLock := true, wrote := false }
  else
    { state := ⟨permRootsCerts⟩, tookExclusiveLock := true, wrote := true }

/-- Modelled from the spec: `Slice::c_str` lives in `common.h`, which is not
among the sources.  The spec's hook contract (§4.2) reads the never-set/empty
store as an absent pointer (the hook "report[s] FAIL only if no buffer has
ever been set (never found/empty state)"), so `c_str` of the stored bytes is
`none` exactly when the store holds no bytes. -/
def Slice.c_str (bytes : String) : Option String :=
  if bytes = "" then none else some bytes

/-- `grpc_ssl_roots_override_result`. -/
inductive RootsOverrideResult
  | OK
  | FAIL
  deriving DecidableEq, Repr

/-- What the hook leaves behind in `*pPermRootsCerts`.  `callerOwnedCopy`
records whether the bytes handed out were duplicated (a `memcpy`/`strdup`)
before being stored through the out-pointer; the source performs no such
copy, it assigns the slice's internal pointer directly. -/
structure HookOutput where
  bytes : Option String
  callerOwnedCopy : Bool
  deriving DecidableEq, Repr

/-- `DefaultPermRootCerts::get_ssl_roots_override` (lines 46-61):
`*pPermRootsCerts = getCerts().c_str();` — no copy is made — then FAIL
iff that pointer is null, OK otherwise. -/
def get_ssl_roots_override (s : DefaultPermRootCerts) :
    RootsOverrideResult × HookOutput :=
  match Slice.c_str (getCerts s) with
  | none => (RootsOverrideResult.FAIL, { bytes := none, callerOwnedCopy := false })
  | some b => (RootsOverrideResult.OK, { bytes := some b, callerOwnedCopy := false })

/-! ## ChannelCredentials createSsl (channel_credentials.cpp, lines 165-210) -/

/-- Modelled from the spec: `StringUtil::SHA1` is an external string/hash
utility ("SHA-1 is treated as a black-box function", §1).  Embedded as a
deterministic, injective, never-empty digest — the collision-freeness the
spec's testable properties assume ("differing key material produces
different hash keys", §8) — by tagging the input bytes. -/
def SHA1 (s : String) : String := "sha1:" ++ s

theorem SHA1_injective : Function.Injective SHA1 := by
  intro a b h
  have h2 : ("sha1:" ++ a).data = ("sha1:" ++ b).data := congrArg String.data h
  simp only [String.data_append] at h2
  exact String.ext (List.append_cancel_left h2)

theorem SHA1_ne_empty (s : String) : SHA1 s ≠ "" := by
  intro h
  have h2 := congrArg String.length h
  simp [SHA1, String.length_append] at h2
  exact absurd h2.1 (by decide)

/-- The `unhashedKey` accumulated by `createSsl`: starts empty, appends the
private key's bytes when that argument is a non-null string, then the cert
chain's bytes when that one is.  Absent arguments (`null`, or a non-string
variant) contribute nothing. -/
def createSslUnhashedKey (private_key cert_chain : Option String) : String :=
  (match private_key with | some k => k | none => "") ++
  (match cert_chain with | some c => c | none => "")

/-- The identity hash key `createSsl` installs:
`!unhashedKey.empty() ? StringUtil::SHA1(unhashedKey, false) : ""`. -/
def createSslHashKey (private_key cert_chain : Option String) : String :=
  if createSslUnhashedKey private_key cert_chain = "" then ""
  else SHA1 (createSslUnhashedKey private_key cert_chain)

/-! ## CallCredentials createFromPlugin (call_credentials.cpp, lines 141-172) -/

/-- The two exception kinds these methods throw
(`throwInvalidArgumentExceptionObject`, `throwBadMethodCallExceptionObject`
with a creation-failure message). -/
inductive CredError
  | InvalidArgument
  | CredentialCreationFailed
  deriving DecidableEq, Repr

/-- The resource-relevant outcome of one `createFromPlugin` call. -/
structure CreateFromPluginResult where
  result : Except CredError Unit
  pluginStateAllocated : Bool
  /-- When the call throws after allocating the `plugin_state`, whether a
  `gpr_free` of that state happened before the throw. -/
  pluginStateFreedBeforeError : Bool
  deriving Repr

/-- `HHVM_STATIC_METHOD(CallCredentials, createFromPlugin)`: a null or
non-callable callback throws `InvalidArgument` before anything is
allocated; otherwise `gpr_zalloc` builds the `plugin_state`, the plugin is
filled in, and `grpc_metadata_credentials_create_from_plugin` runs.  When
that returns no handle the code throws `CredentialCreationFailed` directly
— no `gpr_free(pState)` appears on that path. -/
def createFromPlugin (callbackValid : Bool) (nativeCreateReturnsHandle : Bool) :
    CreateFromPluginResult :=
  if !callbackValid then
    { result := Except.error CredError.InvalidArgument,
      pluginStateAllocated := false, pluginStateFreedBeforeError := false }
  else if !nativeCreateReturnsHandle then
    { result := Except.error CredError.CredentialCreationFailed,
      pluginStateAllocated := true, pluginStateFreedBeforeError := false }
  else
    { result := Except.ok (),
      pluginStateAllocated := true, pluginStateFreedBeforeError := false }

/-! ## plugin_get_metadata (call_credentials.cpp, lines 178-234) -/

/-- `GRPC_METADATA_CREDENTIALS_PLUGIN_SYNC_MAX` from the consumed native
interface `grpc/grpc_security.h` (external protocol constant, §6). -/
def GRPC_METADATA_CREDENTIALS_PLUGIN_SYNC_MAX : Nat := 4

/-- The HHVM `Variant` shapes that matter to the bridge: an ordered PHP
array of key/value pairs, a string, or anything else (int, null, object…). -/
inductive PhpVal
  | arr (entries : List (PhpVal × PhpVal))
  | str (s : String)
  | othr

/-- `Variant::isArray`. -/
def PhpVal.isArr : PhpVal → Bool
  | PhpVal.arr _ => true
  | _ => false

/-- Modelled from the spec: `MetadataArray::init` is defined in
`common.h`/`common.cpp`, which are not among the sources.  Per §4.3 step 4
it converts the callback's array into an ordered sequence of
`MetadataEntry`, validating each key/value is representable as bytes, and
fails on a malformed entry. -/
def MetadataArray.init : List (PhpVal × PhpVal) → Option (List (String × String))
  | [] => some []
  | (PhpVal.str k, PhpVal.str v) :: rest =>
    (MetadataArray.init rest).map (fun md => (k, v) :: md)
  | _ => none

/-- `grpc_status_code` values the bridge uses. -/
inductive GrpcStatus
  | GRPC_STATUS_OK
  | GRPC_STATUS_INVALID_ARGUMENT
  | GRPC_STATUS_INTERNAL
  deriving DecidableEq, Repr

/-- A ref-counted slice held by the bridge call, identified positionally:
the key or the value buffer of the i-th validated metadata entry. -/
inductive SliceId
  | key (i : Nat)
  | val (i : Nat)
  deriving DecidableEq, Repr

/-- A `gpr_slice_ref` or a (destructor) `gpr_slice_unref` on one slice. -/
inductive SliceOp
  | ref (s : SliceId)
  | unref (s : SliceId)
  deriving DecidableEq, Repr

/-- The copy loop's `gpr_slice_ref(creds_md[i].key); gpr_slice_ref(creds_md[i].value)`
for `i = 0 .. n-1`, in source order. -/
def copyLoopRefOps (n : Nat) : List SliceOp :=
  (List.range n).flatMap (fun i => [SliceOp.ref (SliceId.key i), SliceOp.ref (SliceId.val i)])

/-- The `MetadataArray` destructor's unrefs when the bridge's local entry
collection is torn down at function exit ("decreased by 1 when this
function goes out of scope and MetadataArray is destructed", per the
source's own comment). -/
def teardownUnrefOps (n : Nat) : List SliceOp :=
  (List.range n).flatMap (fun i => [SliceOp.unref (SliceId.key i), SliceOp.unref (SliceId.val i)])

/-- Everything the bridge writes through its out-parameters, plus the
slice ref/unref operations it performs (copy-loop refs first, then the
teardown unrefs that happen when the call returns). -/
structure BridgeOutput where
  numEntries : Nat
  statusCode : GrpcStatus
  errorDetails : Option String
  entries : List (String × String)
  sliceTrace : List SliceOp
  deriving DecidableEq, Repr

/-- The bridge's one throwing failure: the callback's return value is not
an array (`throwInvalidArgumentExceptionObject("Callback return value
expected an array.")`). -/
inductive BridgeError
  | InvalidCallbackResult
  deriving DecidableEq, Repr

/-- The `{serviceUrl, methodName}` context handed in by the native layer. -/
structure AuthContext where
  service_url : String
  method_name : String
  deriving DecidableEq, Repr

/-- `plugin_get_metadata` (lines 178-234).  Builds the context object,
invokes the callback, throws if the result is not an array, zeroes the
out-parameters, validates via `MetadataArray::init`, then either reports
INVALID_ARGUMENT (init failed), INTERNAL with a diagnostic (overflow), or
copies every entry with one extra ref per key and value slice.  Returns
`true` — handled synchronously — on every non-throwing path. -/
def plugin_get_metadata (callback : AuthContext → PhpVal) (context : AuthContext) :
    Except BridgeError (Bool × BridgeOutput) :=
  let returnObj : AuthContext :=
    { service_url := context.service_url, method_name := context.method_name }
  let retVal := callback returnObj
  match retVal with
  | PhpVal.str _ => Except.error BridgeError.InvalidCallbackResult
  | PhpVal.othr => Except.error BridgeError.InvalidCallbackResult
  | PhpVal.arr a =>
    match MetadataArray.init a with
    | none =>
      Except.ok (true,
        { numEntries := 0, statusCode := GrpcStatus.GRPC_STATUS_INVALID_ARGUMENT,
          errorDetails := none, entries := [], sliceTrace := [] })
    | some metadata =>
      if metadata.length > GRPC_METADATA_CREDENTIALS_PLUGIN_SYNC_MAX then
        Except.ok (true,
          { numEntries := 0, statusCode := GrpcStatus.GRPC_STATUS_INTERNAL,
            errorDetails := some "PHP plugin credentials returned too many metadata entries",
            entries := [], sliceTrace := teardownUnrefOps metadata.length })
      else
        Except.ok (true,
          { numEntries := metadata.length, statusCode := GrpcStatus.GRPC_STATUS_OK,
            errorDetails := none, entries := metadata,
            sliceTrace := copyLoopRefOps metadata.length ++ teardownUnrefOps metadata.length })

/-- How many times `ops` refs the slice `s`. -/
def countRefs (ops : List SliceOp) (s : SliceId) : Nat :=
  (ops.filter (· = SliceOp.ref s)).length

/-- How many times `ops` unrefs the slice `s`. -/
def countUnrefs (ops : List SliceOp) (s : SliceId) : Nat :=
  (ops.filter (· = SliceOp.unref s)).length

/-- Net reference-count change a trace applies to slice `s`. -/
def netRefDelta (ops : List SliceOp) (s : SliceId) : Int :=
  (countRefs ops s : Int) - (countUnrefs ops s : Int)

/-! ## Helper lemmas -/

/-- A well-formed callback result: every key and value is a PHP string. -/
def strEntries (ps : List (String × String)) : List (PhpVal × PhpVal) :=
  ps.map (fun p => (PhpVal.str p.1, PhpVal.str p.2))

theorem MetadataArray.init_strEntries (ps : List (String × String)) :
    MetadataArray.init (strEntries ps) = some ps := by
  induction ps with
  | nil => rfl
  | cons p rest ih =>
    simp only [strEntries] at ih
    simp [strEntries, MetadataArray.init, ih]

/-- An entry whose key or value is not representable as bytes. -/
def malformedEntry : PhpVal × PhpVal → Bool
  | (PhpVal.str _, PhpVal.str _) => false
  | _ => true

theorem MetadataArray.init_eq_none_of_malformed (a : List (PhpVal × PhpVal))
    (kv : PhpVal × PhpVal) (hmem : kv ∈ a) (hbad : malformedEntry kv = true) :
    MetadataArray.init a = none := by
  induction a with
  | nil => cases hmem
  | cons hd tl ih =>
    rcases List.mem_cons.mp hmem with heq | hmem2
    · subst heq
      obtain ⟨k, v⟩ := kv
      cases k <;> cases v <;> first
        | rfl
        | simp [malformedEntry] at hbad
    · obtain ⟨k, v⟩ := hd
      cases k <;> cases v <;> first
        | rfl
        | simp [MetadataArray.init, ih hmem2]

/-- Structure eta: the context object `plugin_get_metadata` builds from the
native context's fields is the context itself. -/
theorem authContext_eta (c : AuthContext) :
    ({ service_url := c.service_url, method_name := c.method_name } : AuthContext) = c := rfl

theorem countRefs_append (a b : List SliceOp) (s : SliceId) :
    countRefs (a ++ b) s = countRefs a s + countRefs b s := by
  simp [countRefs, List.filter_append]

theorem countUnrefs_append (a b : List SliceOp) (s : SliceId) :
    countUnrefs (a ++ b) s = countUnrefs a s + countUnrefs b s := by
  simp [countUnrefs, List.filter_append]

theorem copyLoopRefOps_succ (n : Nat) :
    copyLoopRefOps (n + 1) =
      copyLoopRefOps n ++ [SliceOp.ref (SliceId.key n), SliceOp.ref (SliceId.val n)] := by
  simp [copyLoopRefOps, List.range_succ, List.flatMap_append]

theorem teardownUnrefOps_succ (n : Nat) :
    teardownUnrefOps (n + 1) =
      teardownUnrefOps n ++ [SliceOp.unref (SliceId.key n), SliceOp.unref (SliceId.val n)] := by
  simp [teardownUnrefOps, List.range_succ, List.flatMap_append]

theorem countRefs_copyLoop_key (n i : Nat) :
    countRefs (copyLoopRefOps n) (SliceId.key i) = if i < n then 1 else 0 := by
  induction n with
  | zero => simp [copyLoopRefOps, countRefs]
  | succ n ih =>
    rw [copyLoopRefOps_succ, countRefs_append, ih]
    by_cases h : i = n
    · subst h
      simp [countRefs]
    · have : countRefs [SliceOp.ref (SliceId.key n), SliceOp.ref (SliceId.val n)]
          (SliceId.key i) = 0 := by
        have h4 : ¬ n = i := fun hh => h hh.symm
        simp [countRefs, h, h4]
      rw [this]
      by_cases h2 : i < n
      · simp [h2, Nat.lt_succ_of_lt h2]
      · have h3 : ¬ i < n + 1 := by omega
        simp [h2, h3]

theorem countRefs_copyLoop_val (n i : Nat) :
    countRefs (copyLoopRefOps n) (SliceId.val i) = if i < n then 1 else 0 := by
  induction n with
  | zero => simp [copyLoopRefOps, countRefs]
  | succ n ih =>
    rw [copyLoopRefOps_succ, countRefs_append, ih]
    by_cases h : i = n
    · subst h
      simp [countRefs]
    · have : countRefs [SliceOp.ref (SliceId.key n), SliceOp.ref (SliceId.val n)]
          (SliceId.val i) = 0 := by
        have h4 : ¬ n = i := fun hh => h hh.symm
        simp [countRefs, h, h4]
      rw [this]
      by_cases h2 : i < n
      · simp [h2, Nat.lt_succ_of_lt h2]
      · have h3 : ¬ i < n + 1 := by omega
        simp [h2, h3]

theorem countUnrefs_copyLoop (n : Nat) (s : SliceId) :
    countUnrefs (copyLoopRefOps n) s = 0 := by
  induction n with
  | zero => simp [copyLoopRefOps, countUnrefs]
  | succ n ih =>
    rw [copyLoopRefOps_succ, countUnrefs_append, ih]
    simp [countUnrefs]

theorem countRefs_teardown (n : Nat) (s : SliceId) :
    countRefs (teardownUnrefOps n) s = 0 := by
  induction n with
  | zero => simp [teardownUnrefOps, countRefs]
  | succ n ih =>
    rw [teardownUnrefOps_succ, countRefs_append, ih]
    simp [countRefs]

theorem countUnrefs_teardown_key (n i : Nat) :
    countUnrefs (teardownUnrefOps n) (SliceId.key i) = if i < n then 1 else 0 := by
  induction n with
  | zero => simp [teardownUnrefOps, countUnrefs]
  | succ n ih =>
    rw [teardownUnrefOps_succ, countUnrefs_append, ih]
    by_cases h : i = n
    · subst h
      simp [countUnrefs]
    · have : countUnrefs [SliceOp.unref (SliceId.key n), SliceOp.unref (SliceId.val n)]
          (SliceId.key i) = 0 := by
        have h4 : ¬ n = i := fun hh => h hh.symm
        simp [countUnrefs, h, h4]
      rw [this]
      by_cases h2 : i < n
      · simp [h2, Nat.lt_succ_of_lt h2]
      · have h3 : ¬ i < n + 1 := by omega
        simp [h2, h3]

theorem countUnrefs_teardown_val (n i : Nat) :
    countUnrefs (teardownUnrefOps n) (SliceId.val i) = if i < n then 1 else 0 := by
  induction n with
  | zero => simp [teardownUnrefOps, countUnrefs]
  | succ n ih =>
    rw [teardownUnrefOps_succ, countUnrefs_append, ih]
    by_cases h : i = n
    · subst h
      simp [countUnrefs]
    · have : countUnrefs [SliceOp.unref (SliceId.key n), SliceOp.unref (SliceId.val n)]
          (SliceId.val i) = 0 := by
        have h4 : ¬ n = i := fun hh => h hh.symm
        simp [countUnrefs, h, h4]
      rw [this]
      by_cases h2 : i < n
      · simp [h2, Nat.lt_succ_of_lt h2]
      · have h3 : ¬ i < n + 1 := by omega
        simp [h2, h3]

/-! ## Claim theorems -/

/-- C9: `setCerts x` followed by `getCerts` returns bytes equal to `x`;
an immediately repeated `setCerts` with identical bytes returns from the
optimistic shared-lock check without taking the exclusive lock and
performs no write; and the stored buffer is replaced exactly when the
check still finds different bytes. -/
theorem C9_setCerts_roundtrip_and_no_redundant_write
    (s : DefaultPermRootCerts) (x : String) :
    getCerts (setCerts s x).state = x ∧
    (setCerts (setCerts s x).state x).tookExclusiveLock = false ∧
    (setCerts (setCerts s x).state x).wrote = false ∧
    ((setCerts s x).wrote = true ↔ getCerts s ≠ x) := by
  by_cases h : s.m_PermRootCerts = x <;>
    simp [setCerts, getCerts, h]

/-- C10: the override hook reports FAIL exactly in the never-set/empty
store state (the store holds no bytes), and OK in every other state. -/
theorem C10_override_fail_iff_never_set (s : DefaultPermRootCerts) :
    ((get_ssl_roots_override s).1 = RootsOverrideResult.FAIL ↔ getCerts s = "") ∧
    ((get_ssl_roots_override s).1 = RootsOverrideResult.OK ↔ getCerts s ≠ "") := by
  by_cases h : s.m_PermRootCerts = "" <;>
    simp [get_ssl_roots_override, Slice.c_str, getCerts, h]

/-- C2 (code bug): after a root bundle has been stored, the override hook
hands the store's bytes out without producing a caller-owned copy
(`callerOwnedCopy = false`): the source assigns the slice's internal
pointer directly, although its own comment says the bytes must be
`memcpy`d first because the caller will `gpr_free` them. -/
theorem C2_hook_hands_out_shared_reference :
    (get_ssl_roots_override (setCerts DefaultPermRootCerts.initial "CERT").state).2 =
      { bytes := some "CERT", callerOwnedCopy := false } := by
  rfl

/-- C3 (code bug): with a valid callback and a native plugin-handle
construction that returns no handle, `createFromPlugin` throws
`CredentialCreationFailed` while the `plugin_state` it allocated is never
freed on that path — the failure leaks the `PluginState`, contrary to the
claim. -/
theorem C3_createFromPlugin_failure_path_leaks_state :
    createFromPlugin true false =
      { result := Except.error CredError.CredentialCreationFailed,
        pluginStateAllocated := true, pluginStateFreedBeforeError := false } := by
  rfl

/-- C1 counterexample: supplying only a private key (cert chain absent)
yields a non-empty identity hash key, refuting the claim that the hash
key is empty whenever either input is absent. -/
theorem C1_counterexample :
    (none : Option String) = none ∧ createSslHashKey (some "k") none ≠ "" := by
  exact ⟨rfl, by decide⟩

/-- C1 (amended): the identity hash key is the SHA-1 digest of the
concatenation of whatever key material is supplied, private key first:
with both supplied (and non-empty concatenation) it digests
`privateKey ++ certChain`; with exactly one supplied and non-empty it
digests that value alone (so it is not empty); omitting both yields the
empty hash key; identical accumulated key material yields equal hash keys
and differing accumulated key material yields different hash keys. -/
theorem C1_createSsl_hashKey_amended :
    (∀ k c : String, k ++ c ≠ "" →
        createSslHashKey (some k) (some c) = SHA1 (k ++ c)) ∧
    (∀ k : String, k ≠ "" →
        createSslHashKey (some k) none = SHA1 k ∧
        createSslHashKey none (some k) = SHA1 k) ∧
    createSslHashKey none none = "" ∧
    (∀ pk1 cc1 pk2 cc2 : Option String,
        createSslUnhashedKey pk1 cc1 = createSslUnhashedKey pk2 cc2 →
        createSslHashKey pk1 cc1 = createSslHashKey pk2 cc2) ∧
    (∀ pk1 cc1 pk2 cc2 : Option String,
        createSslUnhashedKey pk1 cc1 ≠ createSslUnhashedKey pk2 cc2 →
        createSslHashKey pk1 cc1 ≠ createSslHashKey pk2 cc2) := by
  refine ⟨?_, ?_, ?_, ?_, ?_⟩
  · intro k c hne
    simp [createSslHashKey, createSslUnhashedKey, hne]
  · intro k hne
    constructor <;> simp [createSslHashKey, createSslUnhashedKey, hne]
  · rfl
  · intro pk1 cc1 pk2 cc2 heq
    simp [createSslHashKey, heq]
  · intro pk1 cc1 pk2 cc2 hne
    by_cases h1 : createSslUnhashedKey pk1 cc1 = ""
    · have h2 : createSslUnhashedKey pk2 cc2 ≠ "" := fun hh => hne (h1.trans hh.symm)
      simp [createSslHashKey, h1, h2]
      exact fun hh => (SHA1_ne_empty _ hh.symm)
    · by_cases h2 : createSslUnhashedKey pk2 cc2 = ""
      · simp [createSslHashKey, h1, h2]
        exact SHA1_ne_empty _
      · simp [createSslHashKey, h1, h2]
        exact fun hh => hne (SHA1_injective hh)

/-- C1 witness: concrete instances of the amended theorem. -/
theorem C1_witness :
    createSslHashKey (some "k") (some "c") = SHA1 ("k" ++ "c") ∧
    createSslHashKey (some "k") (some "c") ≠ createSslHashKey (some "x") (some "c") := by
  refine ⟨C1_createSsl_hashKey_amended.1 "k" "c" (by decide), ?_⟩
  exact C1_createSsl_hashKey_amended.2.2.2.2 (some "k") (some "c") (some "x") (some "c")
    (by decide)

/-- C4: a callback returning a well-formed mapping of `ps.length ≤
MAX_SYNC_METADATA` entries makes the bridge report `statusCode = OK`,
`numEntries = ps.length`, and output entries byte-equal to the callback's
pairs in the same order. -/
theorem C4_wellformed_within_capacity (callback : AuthContext → PhpVal)
    (context : AuthContext) (ps : List (String × String))
    (hcb : callback context = PhpVal.arr (strEntries ps))
    (hlen : ps.length ≤ GRPC_METADATA_CREDENTIALS_PLUGIN_SYNC_MAX) :
    plugin_get_metadata callback context = Except.ok (true,
      { numEntries := ps.length, statusCode := GrpcStatus.GRPC_STATUS_OK,
        errorDetails := none, entries := ps,
        sliceTrace := copyLoopRefOps ps.length ++ teardownUnrefOps ps.length }) := by
  have hnot : ¬ ps.length > GRPC_METADATA_CREDENTIALS_PLUGIN_SYNC_MAX := Nat.not_lt.mpr hlen
  simp only [plugin_get_metadata, authContext_eta, hcb, MetadataArray.init_strEntries]
  rw [if_neg hnot]

/-- C4 witness: the spec's own end-to-end example. -/
theorem C4_witness :
    plugin_get_metadata (fun _ => PhpVal.arr (strEntries [("authorization", "Bearer abc")]))
        { service_url := "https://svc", method_name := "Get" } =
      Except.ok (true,
        { numEntries := 1, statusCode := GrpcStatus.GRPC_STATUS_OK,
          errorDetails := none, entries := [("authorization", "Bearer abc")],
          sliceTrace := copyLoopRefOps 1 ++ teardownUnrefOps 1 }) := by
  exact C4_wellformed_within_capacity _ _ [("authorization", "Bearer abc")] rfl (by decide)

/-- C5: a callback returning a well-formed mapping with more than
`MAX_SYNC_METADATA` entries makes the bridge report
`statusCode = INTERNAL`, a non-empty static diagnostic in `errorDetails`,
`numEntries = 0`, and copy no entries. -/
theorem C5_overflow_reported_not_truncated (callback : AuthContext → PhpVal)
    (context : AuthContext) (ps : List (String × String))
    (hcb : callback context = PhpVal.arr (strEntries ps))
    (hlen : ps.length > GRPC_METADATA_CREDENTIALS_PLUGIN_SYNC_MAX) :
    plugin_get_metadata callback context = Except.ok (true,
      { numEntries := 0, statusCode := GrpcStatus.GRPC_STATUS_INTERNAL,
        errorDetails := some "PHP plugin credentials returned too many metadata entries",
        entries := [], sliceTrace := teardownUnrefOps ps.length }) ∧
    "PHP plugin credentials returned too many metadata entries" ≠ "" := by
  constructor
  · simp only [plugin_get_metadata, authContext_eta, hcb, MetadataArray.init_strEntries]
    rw [if_pos hlen]
  · decide

/-- C5 witness: five entries overflow the four-slot protocol buffer. -/
theorem C5_witness :
    plugin_get_metadata
        (fun _ => PhpVal.arr (strEntries
          [("a", "1"), ("b", "2"), ("c", "3"), ("d", "4"), ("e", "5")]))
        { service_url := "https://svc", method_name := "Get" } =
      Except.ok (true,
        { numEntries := 0, statusCode := GrpcStatus.GRPC_STATUS_INTERNAL,
          errorDetails := some "PHP plugin credentials returned too many metadata entries",
          entries := [], sliceTrace := teardownUnrefOps 5 }) := by
  exact (C5_overflow_reported_not_truncated _ _
    [("a", "1"), ("b", "2"), ("c", "3"), ("d", "4"), ("e", "5")] rfl (by decide)).1

/-- C6: a callback returning a mapping with a malformed entry makes the
bridge report `statusCode = INVALID_ARGUMENT`, zero entries, no
error-details string, and still complete the synchronous call (returns
`true`, handled synchronously) rather than aborting. -/
theorem C6_malformed_entry_invalid_argument (callback : AuthContext → PhpVal)
    (context : AuthContext) (a : List (PhpVal × PhpVal)) (kv : PhpVal × PhpVal)
    (hcb : callback context = PhpVal.arr a)
    (hmem : kv ∈ a) (hbad : malformedEntry kv = true) :
    plugin_get_metadata callback context = Except.ok (true,
      { numEntries := 0, statusCode := GrpcStatus.GRPC_STATUS_INVALID_ARGUMENT,
        errorDetails := none, entries := [], sliceTrace := [] }) := by
  simp only [plugin_get_metadata, authContext_eta, hcb,
    MetadataArray.init_eq_none_of_malformed a kv hmem hbad]

/-- C6 witness: a mapping whose single entry is not a string pair. -/
theorem C6_witness :
    plugin_get_metadata (fun _ => PhpVal.arr [(PhpVal.othr, PhpVal.othr)])
        { service_url := "https://svc", method_name := "Get" } =
      Except.ok (true,
        { numEntries := 0, statusCode := GrpcStatus.GRPC_STATUS_INVALID_ARGUMENT,
          errorDetails := none, entries := [], sliceTrace := [] }) := by
  exact C6_malformed_entry_invalid_argument _ _ [(PhpVal.othr, PhpVal.othr)]
    (PhpVal.othr, PhpVal.othr) rfl (by simp) rfl

/-- C7: a callback returning a non-mapping value makes the bridge throw
`InvalidCallbackResult`; it never returns OK (or any synchronous result)
in that case. -/
theorem C7_non_mapping_result_fails (callback : AuthContext → PhpVal)
    (context : AuthContext) (h : (callback context).isArr = false) :
    plugin_get_metadata callback context = Except.error BridgeError.InvalidCallbackResult ∧
    ∀ r, plugin_get_metadata callback context ≠ Except.ok r := by
  have hmain : plugin_get_metadata callback context
      = Except.error BridgeError.InvalidCallbackResult := by
    cases hr : callback context with
    | arr a => rw [hr] at h; simp [PhpVal.isArr] at h
    | str s => simp only [plugin_get_metadata, authContext_eta, hr]
    | othr => simp only [plugin_get_metadata, authContext_eta, hr]
  refine ⟨hmain, ?_⟩
  intro r hr2
  rw [hmain] at hr2
  exact Except.noConfusion hr2

/-- C7 witness: a scalar (string) callback result. -/
theorem C7_witness :
    plugin_get_metadata (fun _ => PhpVal.str "nope")
        { service_url := "https://svc", method_name := "Get" } =
      Except.error BridgeError.InvalidCallbackResult := by
  exact (C7_non_mapping_result_fails (fun _ => PhpVal.str "nope")
    { service_url := "https://svc", method_name := "Get" } rfl).1

/-- C8: on the copy path, each copied entry's key and value slice is
ref-incremented exactly once in the copy loop — which, in the bridge's
slice trace, wholly precedes the teardown unrefs — and the full trace's
net reference-count change per slice is 0, so a slice that entered the
call with the local collection's single reference still has a positive
count after teardown: the output entries stay valid. -/
theorem C8_refcount_exactly_once (callback : AuthContext → PhpVal)
    (context : AuthContext) (ps : List (String × String))
    (hcb : callback context = PhpVal.arr (strEntries ps))
    (hlen : ps.length ≤ GRPC_METADATA_CREDENTIALS_PLUGIN_SYNC_MAX)
    (i : Nat) (hi : i < ps.length) :
    plugin_get_metadata callback context = Except.ok (true,
      { numEntries := ps.length, statusCode := GrpcStatus.GRPC_STATUS_OK,
        errorDetails := none, entries := ps,
        sliceTrace := copyLoopRefOps ps.length ++ teardownUnrefOps ps.length }) ∧
    countRefs (copyLoopRefOps ps.length) (SliceId.key i) = 1 ∧
    countRefs (copyLoopRefOps ps.length) (SliceId.val i) = 1 ∧
    netRefDelta (copyLoopRefOps ps.length ++ teardownUnrefOps ps.length) (SliceId.key i) = 0 ∧
    netRefDelta (copyLoopRefOps ps.length ++ teardownUnrefOps ps.length) (SliceId.val i) = 0 := by
  have hnot : ¬ ps.length > GRPC_METADATA_CREDENTIALS_PLUGIN_SYNC_MAX := Nat.not_lt.mpr hlen
  refine ⟨?_, ?_, ?_, ?_, ?_⟩
  · simp only [plugin_get_metadata, authContext_eta, hcb, MetadataArray.init_strEntries]
    rw [if_neg hnot]
  · rw [countRefs_copyLoop_key, if_pos hi]
  · rw [countRefs_copyLoop_val, if_pos hi]
  · rw [netRefDelta, countRefs_append, countUnrefs_append,
       countRefs_copyLoop_key, countRefs_teardown, countUnrefs_copyLoop,
       countUnrefs_teardown_key, if_pos hi]
    simp
  · rw [netRefDelta, countRefs_append, countUnrefs_append,
       countRefs_copyLoop_val, countRefs_teardown, countUnrefs_copyLoop,
       countUnrefs_teardown_val, if_pos hi]
    simp

/-- C8 witness: two entries, checking the second one's slices. -/
theorem C8_witness :
    countRefs (copyLoopRefOps 2) (SliceId.key 1) = 1 ∧
    countRefs (copyLoopRefOps 2) (SliceId.val 1) = 1 ∧
    netRefDelta (copyLoopRefOps 2 ++ teardownUnrefOps 2) (SliceId.key 1) = 0 := by
  have h := C8_refcount_exactly_once
    (fun _ => PhpVal.arr (strEntries [("k1", "v1"), ("k2", "v2")]))
    { service_url := "https://svc", method_name := "Get" }
    [("k1", "v1"), ("k2", "v2")] rfl (by decide) 1 (by decide)
  exact ⟨h.2.1, h.2.2.1, h.2.2.2.1⟩

end GrpcHhvm
